import Mathlib

/-!
Verification model of the release orchestration scripts of the
isy.healthcare repository: the server clone-and-deploy script that stages
a timestamped release directory, gates promotion on a curl health loop and
reuses or creates a temporary swap file; the older server script that
replaces the application directory in place before cloning; the local
development deployment script with a two-attempt docker build and
restart of the previous container on failure; and the remote VPS
deployment script that removes its temporary swap in a finally block.
-/

namespace IsyDeploy

/-- Outcome of one health probe issued by the server script via
curl -sSf --max-time 5 (part_002 line 196): none models a network error
or a per-request timeout; some s models an HTTP response with status s.
curl with the -f flag exits non-zero exactly for statuses of 400 and
above, so any response with a status below 400 counts as a successful
probe, including 3xx redirects and non-200 2xx codes. -/
def curlProbeHealthy : Option Nat → Bool
  | none => false
  | some s => decide (s < 400)

/-- Outcome of one health probe issued by the development script via
Invoke-WebRequest (part_000 lines 178-181): none models a thrown error
(network error, per-request timeout, or an error status that makes the
call throw); some s models a response object whose StatusCode is s.  The
script counts the probe as healthy only when StatusCode equals 200. -/
def devProbeHealthy : Option Nat → Bool
  | none => false
  | some s => s == 200

/-- Result of the health wait loop of part_002 lines 195-200: the final
value of the ELAPSED counter, whether the loop exited because a probe
succeeded, and how many probes were issued. -/
structure WaitResult where
  elapsed : Nat
  success : Bool
  polls : Nat
deriving DecidableEq, Repr

/-- The until-loop of part_002 lines 196-200, fuel-indexed so that the
definition is structurally recursive.  Each iteration first runs the
probe (curl is the first disjunct of the until condition); on success the
loop exits at once, otherwise it exits when the elapsed counter has
reached the timeout, and otherwise it sleeps for interval time units,
adds interval to the counter and retries.  When the fuel is zero the
loop is at an iteration with timeout ≤ elapsed, where the remaining
behaviour is a single probe, which is exactly what the base case
returns; waitLoopGo_fuel_succ below proves the fuel is irrelevant once
it is large enough, and the entry points pass sufficient fuel. -/
def waitLoopGo (probe : Nat → Bool) (timeout interval : Nat) : Nat → Nat → WaitResult
  | 0, elapsed => ⟨elapsed, probe elapsed, 1⟩
  | fuel + 1, elapsed =>
    if probe elapsed then ⟨elapsed, true, 1⟩
    else if timeout ≤ elapsed then ⟨elapsed, false, 1⟩
    else
      let r := waitLoopGo probe timeout interval fuel (elapsed + interval)
      ⟨r.elapsed, r.success, r.polls + 1⟩

/-- The health wait loop with a generic poll interval (the script hard
codes interval 2; the generalisation only replaces the literal 2 of
sleep 2 and ELAPSED=ELAPSED+2 by the parameter).  Fuel timeout suffices
for every interval of at least 1. -/
def waitHealthyP (probe : Nat → Bool) (timeout interval : Nat) : WaitResult :=
  waitLoopGo probe timeout interval timeout 0

/-- The health wait loop exactly as in part_002, with poll interval 2. -/
def waitHealthy (probe : Nat → Bool) (timeout : Nat) : WaitResult :=
  waitHealthyP probe timeout 2

/-- The healthy/unhealthy decision of part_002 line 202: the release is
treated as healthy exactly when the final ELAPSED counter is still
strictly below HEALTH_TIMEOUT. -/
def waitHealthyDecision (probe : Nat → Bool) (timeout interval : Nat) : Bool :=
  decide ((waitHealthyP probe timeout interval).elapsed < timeout)

/-- Which release a file of the application directory currently comes
from: the previously promoted release (old) or the newly staged one
(new). -/
inductive FileVer where
  | old : FileVer
  | new : FileVer
deriving DecidableEq, Repr

/-- One step of cp -a RELEASE_DIR/. APP_DIR/ (part_002 line 211): copy a
single file of the release into the application directory, overwriting
the file of the same name when present and appending it otherwise. -/
def copyFile (dir : List (String × FileVer)) (name : String) : List (String × FileVer) :=
  if dir.any (fun p => p.1 == name) then
    dir.map (fun p => if p.1 == name then (p.1, FileVer.new) else p)
  else
    dir ++ [(name, FileVer.new)]

/-- The whole cp -a copy: the files of the release are copied into the
application directory one after the other. -/
def cpA (dir : List (String × FileVer)) (files : List String) : List (String × FileVer) :=
  files.foldl copyFile dir

/-- The sequence of application-directory states a reader can observe
while cp -a is running: the state before any copy, and the state after
each individual file copy. -/
def cpAStates (dir : List (String × FileVer)) : List String → List (List (String × FileVer))
  | [] => [dir]
  | f :: fs => dir :: cpAStates (copyFile dir f) fs

/-- Every file of the directory still comes from the previous release. -/
def allOld (dir : List (String × FileVer)) : Bool :=
  dir.all fun p => p.2 == FileVer.old

/-- Every file of the directory comes from the new release. -/
def allNew (dir : List (String × FileVer)) : Bool :=
  dir.all fun p => p.2 == FileVer.new

/-- Cache mode of one docker build attempt. -/
inductive CacheMode where
  | cached : CacheMode
  | noCache : CacheMode
deriving DecidableEq, Repr

/-- One build attempt as run by the scripts: its ordinal number, the
cache mode of the docker build command, whether docker builder prune ran
before it, and whether the build command exited successfully. -/
structure BuildAttempt where
  attemptNumber : Nat
  cacheMode : CacheMode
  prunedBefore : Bool
  exitOk : Bool
deriving DecidableEq, Repr

/-! ### Server clone-and-deploy script (part_002) -/

/-- External outcomes consumed by one run of the server script
(part_002): whether the required tools are installed, whether git clone
succeeds, the file names of the cloned release, the host memory read
from /proc/meminfo, the outcomes of the swap-related commands, of docker
compose build and up, the HTTP responses of the health endpoint indexed
by the elapsed counter at which the probe is issued, and the configured
HEALTH_TIMEOUT. -/
structure SrvEnv where
  gitInstalled : Bool
  dockerInstalled : Bool
  cloneOk : Bool
  releaseFiles : List String
  memMB : Nat
  mkswapReuseOk : Bool
  swaponReuseOk : Bool
  fallocateOk : Bool
  ddOk : Bool
  mkswapNewOk : Bool
  swaponNewOk : Bool
  buildOk : Bool
  upOk : Bool
  responses : Nat → Option Nat
  healthTimeout : Nat

/-- Host state when the server script starts: whether the services of
the previous deployment are running, the files of the application
directory, and whether /swapfile exists and is active. -/
structure HostInit where
  oldServicesRunning : Bool
  appDirFiles : List (String × FileVer)
  swapFileExists : Bool
  swapActive : Bool

/-- State of /swapfile after the swap-provisioning block of part_002
lines 113-162: whether the file exists, whether it is active as swap,
the value of the CREATED_SWAP flag, and whether the block aborted the
script (both dd fallbacks failing under set -e). -/
structure SwapOutcome where
  fileExists : Bool
  active : Bool
  created : Bool
  aborted : Bool
deriving DecidableEq, Repr

/-- The swap-provisioning block of part_002 lines 113-162.  On a host
with less than 2000 MB of memory: an already active /swapfile is left
alone; an existing inactive /swapfile is reactivated with mkswap and
swapon and, on success, CREATED_SWAP is set to 1 even though the file
predates the run; otherwise a fresh /swapfile is allocated with
fallocate or dd, and mkswap/swapon failures on it leave CREATED_SWAP at
0 while the file remains on disk.  set -e aborts the script only when
both dd invocations fail. -/
def ensureSwap (env : SrvEnv) (init : HostInit) : SwapOutcome :=
  if env.memMB < 2000 then
    if init.swapActive then
      ⟨init.swapFileExists, true, false, false⟩
    else if init.swapFileExists && env.mkswapReuseOk && env.swaponReuseOk then
      ⟨true, true, true, false⟩
    else if env.fallocateOk || env.ddOk then
      if env.mkswapNewOk && env.swaponNewOk then ⟨true, true, true, false⟩
      else ⟨true, false, false, false⟩
    else
      ⟨init.swapFileExists, false, false, true⟩
  else
    ⟨init.swapFileExists, init.swapActive, false, false⟩

/-- Final state of one run of the server script (part_002): exit code,
whether the promotion block ran, the files of the application directory,
whether the staged release directory still exists, whether the previous
and the new services are running, the state of /swapfile, the
CREATED_SWAP flag, how many times the swap-removal block ran, and the
build attempts that were issued. -/
structure SrvResult where
  exitCode : Nat
  promoted : Bool
  appDirFiles : List (String × FileVer)
  releaseDirExists : Bool
  oldServicesRunning : Bool
  newServicesRunning : Bool
  swapFileExists : Bool
  swapActive : Bool
  createdSwap : Bool
  swapRemovals : Nat
  buildAttempts : List BuildAttempt

/-- One run of the server clone-and-deploy script (part_002), in source
order: tool checks; pre-deploy cleanup that stops and removes the
previous deployment and its images; staging of a release directory and
git clone into it (clone failure removes the release directory and
exits); the swap block; docker compose down plus an unconditional
docker builder prune; a single docker compose build in no-cache mode
(failure removes the release directory and exits, leaving the swap in
place); docker compose up (same failure handling); the health wait
loop; on a healthy decision the promotion block copies the release
files into the application directory with cp -a and then removes the
release directory, after which the swap-removal block runs once when
CREATED_SWAP is 1 and the script exits 0; on an unhealthy decision the
new services are brought down, the release directory is removed and the
script exits 1 without reaching the swap-removal block. -/
def serverCloneAndDeploy (env : SrvEnv) (init : HostInit) : SrvResult :=
  if !(env.gitInstalled && env.dockerInstalled) then
    ⟨1, false, init.appDirFiles, false, init.oldServicesRunning, false,
      init.swapFileExists, init.swapActive, false, 0, []⟩
  else if !env.cloneOk then
    ⟨1, false, init.appDirFiles, false, false, false,
      init.swapFileExists, init.swapActive, false, 0, []⟩
  else
    let sw := ensureSwap env init
    if sw.aborted then
      ⟨1, false, init.appDirFiles, true, false, false,
        sw.fileExists, sw.active, false, 0, []⟩
    else if !env.buildOk then
      ⟨1, false, init.appDirFiles, false, false, false,
        sw.fileExists, sw.active, sw.created, 0,
        [⟨1, CacheMode.noCache, true, false⟩]⟩
    else if !env.upOk then
      ⟨1, false, init.appDirFiles, false, false, false,
        sw.fileExists, sw.active, sw.created, 0,
        [⟨1, CacheMode.noCache, true, true⟩]⟩
    else
      let w := waitHealthy (fun e => curlProbeHealthy (env.responses e)) env.healthTimeout
      if w.elapsed < env.healthTimeout then
        ⟨0, true, cpA init.appDirFiles env.releaseFiles, false, false, true,
          sw.fileExists && !sw.created, sw.active && !sw.created, sw.created,
          (if sw.created then 1 else 0),
          [⟨1, CacheMode.noCache, true, true⟩]⟩
      else
        ⟨1, false, init.appDirFiles, false, false, false,
          sw.fileExists, sw.active, sw.created, 0,
          [⟨1, CacheMode.noCache, true, true⟩]⟩

/-! ### Older server script (part_003) -/

/-- External outcomes consumed by one run of the older server script
(part_003): tool checks, git clone, host memory, whether the whole
fallocate/mkswap/swapon sequence succeeds (any failure aborts the
script under set -e), and the build and up outcomes. -/
structure OldSrvEnv where
  gitInstalled : Bool
  dockerInstalled : Bool
  cloneOk : Bool
  memMB : Nat
  swapSetupOk : Bool
  buildOk : Bool
  upOk : Bool

/-- Host state when the older server script starts. -/
structure OldInit where
  appDirExists : Bool
  oldServicesRunning : Bool
  swapFileExists : Bool
  swapActive : Bool

/-- Final state of one run of the older server script (part_003). -/
structure OldSrvResult where
  exitCode : Nat
  appDirExists : Bool
  appDirIsNewRelease : Bool
  oldServicesRunning : Bool
  swapFileExists : Bool
  swapActive : Bool
  createdSwap : Bool
  swapRemovals : Nat

/-- One run of the older server script (part_003), in source order:
tool checks; rm -rf of the existing application directory (lines
28-31); git clone into the same path (failure exits with the previous
directory already gone); unconditional swap creation on low-memory
hosts, aborting under set -e when any swap command fails; docker
compose down plus builder prune; an unguarded no-cache build and an
unguarded up, either of whose failures aborts the script under set -e
without removing the swap; and finally swap removal when CREATED_SWAP
is 1. -/
def oldServerDeploy (env : OldSrvEnv) (init : OldInit) : OldSrvResult :=
  if !(env.gitInstalled && env.dockerInstalled) then
    ⟨1, init.appDirExists, false, init.oldServicesRunning,
      init.swapFileExists, init.swapActive, false, 0⟩
  else if !env.cloneOk then
    ⟨1, false, false, init.oldServicesRunning,
      init.swapFileExists, init.swapActive, false, 0⟩
  else if decide (env.memMB < 2000) && !env.swapSetupOk then
    ⟨1, true, true, init.oldServicesRunning,
      init.swapFileExists, init.swapActive, false, 0⟩
  else
    let created := decide (env.memMB < 2000)
    let fileEx := created || init.swapFileExists
    let active := created || init.swapActive
    if !env.buildOk then
      ⟨1, true, true, false, fileEx, active, created, 0⟩
    else if !env.upOk then
      ⟨1, true, true, false, fileEx, active, created, 0⟩
    else
      ⟨0, true, true, false,
        !created && init.swapFileExists, !created && init.swapActive,
        created, (if created then 1 else 0)⟩

/-! ### Development deployment script (part_000) -/

/-- External outcomes consumed by one run of the development script
(part_000): whether docker is running, whether the local npm build
succeeds, whether a previous isy-healthcare-dev container exists, the
outcomes of the two docker compose build attempts and of docker compose
up, and the HTTP responses of the health endpoint indexed by poll
number. -/
structure DevEnv where
  dockerRunning : Bool
  npmBuildOk : Bool
  oldContainerExists : Bool
  attempt1Ok : Bool
  attempt2Ok : Bool
  upOk : Bool
  responses : Nat → Option Nat

/-- Host state when the development script starts. -/
structure DevInit where
  oldContainerRunning : Bool

/-- Final state of one run of the development script (part_000). -/
structure DevResult where
  exitCode : Nat
  oldContainerRunning : Bool
  newAppRunning : Bool
  buildAttempts : List BuildAttempt
  healthOk : Bool

/-- The build attempts of part_000 lines 137-155: attempt 1 runs with
BuildKit caching enabled and no preceding prune; only when it fails does
the script prune the builder cache and run exactly one more attempt
with --no-cache. -/
def devBuildAttempts (env : DevEnv) : List BuildAttempt :=
  if env.attempt1Ok then
    [⟨1, CacheMode.cached, false, true⟩]
  else
    [⟨1, CacheMode.cached, false, false⟩, ⟨2, CacheMode.noCache, true, env.attempt2Ok⟩]

/-- The 30-iteration health poll of part_000 lines 176-183: the new app
is healthy when some poll among the 30 returns StatusCode 200. -/
def devHealthOk (responses : Nat → Option Nat) : Bool :=
  (List.range 30).any fun i => devProbeHealthy (responses i)

/-- One run of the development script (part_000), in source order:
docker check; configuration and npm build (failure exits with the
previous container untouched); docker stop of the previous container
when one exists; the two-attempt build, with docker start of the
previous container and exit 1 when both attempts fail; docker compose
up of the app service, with the same restart-and-exit handling on
failure; and the health poll, after which an unhealthy result restarts
the previous container when one exists and exits 1 while leaving the
newly started container in place. -/
def devDeploy (env : DevEnv) (init : DevInit) : DevResult :=
  if !env.dockerRunning then
    ⟨1, init.oldContainerRunning, false, [], false⟩
  else if !env.npmBuildOk then
    ⟨1, init.oldContainerRunning, false, [], false⟩
  else
    let oldRun := if env.oldContainerExists then false else init.oldContainerRunning
    let attempts := devBuildAttempts env
    if !(env.attempt1Ok || env.attempt2Ok) then
      ⟨1, (if env.oldContainerExists then true else oldRun), false, attempts, false⟩
    else if !env.upOk then
      ⟨1, (if env.oldContainerExists then true else oldRun), false, attempts, false⟩
    else if devHealthOk env.responses then
      ⟨0, oldRun, true, attempts, true⟩
    else
      ⟨1, (if env.oldContainerExists then true else oldRun), true, attempts, false⟩

/-! ### Remote VPS deployment script (part_004) -/

/-- External outcomes consumed by one run of the remote deployment
script (part_004): whether the uploads succeed, the remote host memory,
whether the remote swap creation succeeds, and the exit status of the
remote build-and-up command. -/
structure RemoteEnv where
  uploadOk : Bool
  remoteMemMB : Nat
  swapCreateOk : Bool
  buildOk : Bool

/-- Final state of one run of the remote deployment script (part_004). -/
structure RemoteResult where
  exitedEarly : Bool
  buildExit : Nat
  createdSwap : Bool
  swapRemovals : Nat

/-- One run of the remote deployment script (part_004): upload failures
exit before any swap is created; otherwise swap is created on a
low-memory remote host when the creation command succeeds, the remote
build-and-up command runs inside a try block, and the finally block
removes the created swap exactly once regardless of the build
outcome (lines 108-124). -/
def remoteDeploy (env : RemoteEnv) : RemoteResult :=
  if !env.uploadOk then
    ⟨true, 1, false, 0⟩
  else
    let created := decide (env.remoteMemMB < 2000) && env.swapCreateOk
    ⟨false, (if env.buildOk then 0 else 1), created, (if created then 1 else 0)⟩

/-! ### Concrete runs used by the witnesses and counterexamples -/

/-- A server run on a high-memory host where every command succeeds and
the first health probe returns HTTP 200. -/
def c1env : SrvEnv :=
  ⟨true, true, true, ["docker-compose.yml"], 4096, true, true, true, true, true, true,
    true, true, fun _ => some 200, 10⟩

/-- Initial host state for c1env: the previous deployment is serving. -/
def c1init : HostInit :=
  ⟨true, [("docker-compose.yml", FileVer.old)], false, false⟩

/-- Application directory before promotion: two files of the previously
active release. -/
def c2dir : List (String × FileVer) :=
  [("docker-compose.yml", FileVer.old), ("Dockerfile", FileVer.old)]

/-- The files of the staged release that cp -a copies. -/
def c2files : List String := ["docker-compose.yml", "Dockerfile"]

/-- The application directory midway through cp -a: the first file is
already from the new release while the second still belongs to the
previous one. -/
def c2mixed : List (String × FileVer) :=
  [("docker-compose.yml", FileVer.new), ("Dockerfile", FileVer.old)]

/-- A run of the older server script in which git clone fails. -/
def c2oldEnv : OldSrvEnv := ⟨true, true, false, 4096, true, true, true⟩

/-- Initial state for c2oldEnv: the previously active release directory
exists and its services are running. -/
def c2oldInit : OldInit := ⟨true, true, false, false⟩

/-- A fully successful server run used to instantiate the amended
promotion description. -/
def c2env : SrvEnv :=
  ⟨true, true, true, ["docker-compose.yml", "Dockerfile"], 4096, true, true, true, true,
    true, true, true, true, fun _ => some 200, 10⟩

/-- Initial host state for c2env. -/
def c2init : HostInit := ⟨true, c2dir, false, false⟩

/-- A server run on a high-memory host in which docker compose build
fails. -/
def c3env : SrvEnv :=
  ⟨true, true, true, ["docker-compose.yml"], 4096, true, true, true, true, true, true,
    false, true, fun _ => some 200, 10⟩

/-- Initial host state for c3env: the previous deployment is serving. -/
def c3init : HostInit :=
  ⟨true, [("docker-compose.yml", FileVer.old)], false, false⟩

/-- A development run in which both build attempts fail while a previous
container exists. -/
def c3devEnv : DevEnv := ⟨true, true, true, false, false, true, fun _ => some 200⟩

/-- Initial state for c3devEnv: the previous container is running. -/
def c3devInit : DevInit := ⟨true⟩

/-- A server run in which everything succeeds up to the health wait but
every health probe fails (connection refused). -/
def c4env : SrvEnv :=
  ⟨true, true, true, ["docker-compose.yml"], 4096, true, true, true, true, true, true,
    true, true, fun _ => none, 4⟩

/-- Initial host state for c4env: the previous deployment is serving. -/
def c4init : HostInit :=
  ⟨true, [("docker-compose.yml", FileVer.old)], false, false⟩

/-- A development run that reaches the health poll and never sees a 200
response, with a previous container available. -/
def c4devEnv : DevEnv := ⟨true, true, true, true, true, true, fun _ => none⟩

/-- Initial state for c4devEnv. -/
def c4devInit : DevInit := ⟨true⟩

/-- A successful server run on a low-memory host on which /swapfile
exists but is inactive, so the script reuses it and sets CREATED_SWAP. -/
def c5env : SrvEnv :=
  ⟨true, true, true, ["docker-compose.yml"], 1024, true, true, true, true, true, true,
    true, true, fun _ => some 200, 10⟩

/-- Initial host state for c5env: an inactive /swapfile predates the
run. -/
def c5init : HostInit :=
  ⟨true, [("docker-compose.yml", FileVer.old)], true, false⟩

/-- A server run on a low-memory host whose /swapfile is already active
at the start. -/
def c5aenv : SrvEnv :=
  ⟨true, true, true, ["docker-compose.yml"], 1024, true, true, true, true, true, true,
    true, true, fun _ => some 200, 10⟩

/-- Initial host state for c5aenv: /swapfile exists and is active. -/
def c5ainit : HostInit :=
  ⟨true, [("docker-compose.yml", FileVer.old)], true, true⟩

/-- A server run on a low-memory host with no pre-existing swap that
creates a swap file and then fails the docker build. -/
def c6env : SrvEnv :=
  ⟨true, true, true, ["docker-compose.yml"], 1024, true, true, true, true, true, true,
    false, true, fun _ => some 200, 10⟩

/-- Initial host state for c6env: no swap at all. -/
def c6init : HostInit :=
  ⟨true, [("docker-compose.yml", FileVer.old)], false, false⟩

/-- A successful server run on a low-memory host with no pre-existing
swap, so the run creates and later removes its swap file. -/
def c6wenv : SrvEnv :=
  ⟨true, true, true, ["docker-compose.yml"], 1024, true, true, true, true, true, true,
    true, true, fun _ => some 200, 10⟩

/-- Initial host state for c6wenv. -/
def c6winit : HostInit :=
  ⟨true, [("docker-compose.yml", FileVer.old)], false, false⟩

/-- A remote deployment run on a low-memory VPS whose build fails. -/
def c6renv : RemoteEnv := ⟨true, 1024, true, false⟩

/-- A fully successful server run on a high-memory host, used to read
off the build attempts the server script issues. -/
def c7env : SrvEnv :=
  ⟨true, true, true, ["docker-compose.yml"], 4096, true, true, true, true, true, true,
    true, true, fun _ => some 200, 10⟩

/-- Initial host state for c7env. -/
def c7init : HostInit :=
  ⟨true, [("docker-compose.yml", FileVer.old)], false, false⟩

/-- A development run whose first build attempt fails and whose no-cache
retry succeeds. -/
def c7devEnv : DevEnv := ⟨true, true, true, false, true, true, fun _ => some 200⟩

/-- Initial state for c7devEnv. -/
def c7devInit : DevInit := ⟨true⟩

/-- A probe that first succeeds exactly when the elapsed counter has
reached 2. -/
def c8probe : Nat → Bool := fun e => decide (2 ≤ e)

/-- A probe that never succeeds. -/
def c8never : Nat → Bool := fun _ => false

/-- A probe that succeeds from the first poll on. -/
def c8always : Nat → Bool := fun _ => true

/-- A server run with HEALTH_TIMEOUT 4 whose endpoint returns its first
success (HTTP 200) exactly when the elapsed counter reaches 4. -/
def c10env : SrvEnv :=
  ⟨true, true, true, ["docker-compose.yml"], 4096, true, true, true, true, true, true,
    true, true, fun e => if e < 4 then none else some 200, 4⟩

/-- Initial host state for c10env: the previous deployment is serving. -/
def c10init : HostInit :=
  ⟨true, [("docker-compose.yml", FileVer.old)], false, false⟩

/-! ### Lemmas about the health wait loop -/

theorem waitLoopGo_zero (probe : Nat → Bool) (timeout interval elapsed : Nat) :
    waitLoopGo probe timeout interval 0 elapsed = ⟨elapsed, probe elapsed, 1⟩ := rfl

theorem waitLoopGo_succ (probe : Nat → Bool) (timeout interval fuel elapsed : Nat) :
    waitLoopGo probe timeout interval (fuel + 1) elapsed =
      if probe elapsed then ⟨elapsed, true, 1⟩
      else if timeout ≤ elapsed then ⟨elapsed, false, 1⟩
      else ⟨(waitLoopGo probe timeout interval fuel (elapsed + interval)).elapsed,
            (waitLoopGo probe timeout interval fuel (elapsed + interval)).success,
            (waitLoopGo probe timeout interval fuel (elapsed + interval)).polls + 1⟩ := rfl

/-- Once the elapsed counter has reached the timeout the loop performs a
single final probe and exits, whatever the fuel. -/
theorem waitLoopGo_of_timeout_le (probe : Nat → Bool) (timeout interval fuel elapsed : Nat)
    (h : timeout ≤ elapsed) :
    waitLoopGo probe timeout interval fuel elapsed = ⟨elapsed, probe elapsed, 1⟩ := by
  cases fuel with
  | zero => rfl
  | succ fuel =>
    rw [waitLoopGo_succ probe timeout interval fuel elapsed]
    by_cases hp : probe elapsed = true
    · rw [if_pos hp, hp]
    · have hp2 : probe elapsed = false := by
        cases hpe : probe elapsed
        · rfl
        · exact absurd hpe hp
      rw [if_neg hp, if_pos h, hp2]

/-- Fuel beyond the sufficiency bound does not change the loop result,
so the fuel-indexed definition really is the loop of the script. -/
theorem waitLoopGo_fuel_succ (probe : Nat → Bool) (timeout interval : Nat) :
    ∀ fuel elapsed, timeout ≤ elapsed + fuel * interval →
      waitLoopGo probe timeout interval (fuel + 1) elapsed
        = waitLoopGo probe timeout interval fuel elapsed := by
  intro fuel
  induction fuel with
  | zero =>
    intro elapsed h
    simp only [Nat.zero_mul, Nat.add_zero] at h
    rw [waitLoopGo_of_timeout_le probe timeout interval 1 elapsed h,
        waitLoopGo_zero probe timeout interval elapsed]
  | succ fuel ih =>
    intro elapsed h
    rw [waitLoopGo_succ probe timeout interval (fuel + 1) elapsed,
        waitLoopGo_succ probe timeout interval fuel elapsed]
    by_cases hp : probe elapsed = true
    · rw [if_pos hp, if_pos hp]
    · by_cases ht : timeout ≤ elapsed
      · rw [if_neg hp, if_neg hp, if_pos ht, if_pos ht]
      · have hmul : (fuel + 1) * interval = fuel * interval + interval :=
          Nat.succ_mul fuel interval
        have h2 : timeout ≤ (elapsed + interval) + fuel * interval := by omega
        rw [if_neg hp, if_neg hp, if_neg ht, if_neg ht, ih (elapsed + interval) h2]

/-- If the loop exits with the elapsed counter still below the timeout,
the probe at that counter value succeeded: with sufficient fuel, an exit
below the timeout can only happen through the success branch. -/
theorem waitLoopGo_elapsed_lt (probe : Nat → Bool) (timeout interval : Nat) :
    ∀ fuel elapsed, timeout ≤ elapsed + fuel * interval →
      (waitLoopGo probe timeout interval fuel elapsed).elapsed < timeout →
      probe (waitLoopGo probe timeout interval fuel elapsed).elapsed = true
        ∧ (waitLoopGo probe timeout interval fuel elapsed).success = true := by
  intro fuel
  induction fuel with
  | zero =>
    intro elapsed h hlt
    rw [waitLoopGo_zero probe timeout interval elapsed] at hlt
    dsimp only at hlt
    simp only [Nat.zero_mul, Nat.add_zero] at h
    omega
  | succ fuel ih =>
    intro elapsed h hlt
    rw [waitLoopGo_succ probe timeout interval fuel elapsed] at hlt ⊢
    by_cases hp : probe elapsed = true
    · rw [if_pos hp]
      exact ⟨hp, rfl⟩
    · by_cases ht : timeout ≤ elapsed
      · rw [if_neg hp, if_pos ht] at hlt
        dsimp only at hlt
        omega
      · have hmul : (fuel + 1) * interval = fuel * interval + interval :=
          Nat.succ_mul fuel interval
        have h2 : timeout ≤ (elapsed + interval) + fuel * interval := by omega
        rw [if_neg hp, if_neg ht] at hlt ⊢
        exact ih (elapsed + interval) h2 hlt

/-- Against an endpoint that never succeeds, the loop exits through the
timeout branch: the success flag is false and the final elapsed counter
lies in the interval from the timeout up to timeout plus one poll
interval (exclusive). -/
theorem waitLoopGo_never (probe : Nat → Bool) (timeout interval : Nat)
    (hnever : ∀ x, probe x = false) :
    ∀ fuel elapsed, timeout ≤ elapsed + fuel * interval → elapsed < timeout + interval →
      (waitLoopGo probe timeout interval fuel elapsed).success = false
        ∧ timeout ≤ (waitLoopGo probe timeout interval fuel elapsed).elapsed
        ∧ (waitLoopGo probe timeout interval fuel elapsed).elapsed < timeout + interval := by
  intro fuel
  induction fuel with
  | zero =>
    intro elapsed h hub
    rw [waitLoopGo_zero probe timeout interval elapsed, hnever elapsed]
    simp only [Nat.zero_mul, Nat.add_zero] at h
    exact ⟨rfl, h, hub⟩
  | succ fuel ih =>
    intro elapsed h hub
    have hp : ¬ probe elapsed = true := by simp [hnever elapsed]
    rw [waitLoopGo_succ probe timeout interval fuel elapsed, if_neg hp]
    by_cases ht : timeout ≤ elapsed
    · rw [if_pos ht]
      exact ⟨rfl, ht, hub⟩
    · have hmul : (fuel + 1) * interval = fuel * interval + interval :=
        Nat.succ_mul fuel interval
      have h2 : timeout ≤ (elapsed + interval) + fuel * interval := by omega
      have hub2 : elapsed + interval < timeout + interval := by omega
      rw [if_neg ht]
      exact ih (elapsed + interval) h2 hub2

/-- Against an endpoint that never succeeds, the number of probes is
bounded: interval times the number of polls is below the timeout plus
twice the interval. -/
theorem waitLoopGo_never_polls (probe : Nat → Bool) (timeout interval : Nat)
    (hP : 0 < interval) (hnever : ∀ x, probe x = false) :
    ∀ fuel elapsed,
      interval * (waitLoopGo probe timeout interval fuel elapsed).polls
        ≤ (timeout - elapsed) + 2 * interval - 1 := by
  intro fuel
  induction fuel with
  | zero =>
    intro elapsed
    rw [waitLoopGo_zero probe timeout interval elapsed]
    dsimp only
    omega
  | succ fuel ih =>
    intro elapsed
    have hp : ¬ probe elapsed = true := by simp [hnever elapsed]
    rw [waitLoopGo_succ probe timeout interval fuel elapsed, if_neg hp]
    by_cases ht : timeout ≤ elapsed
    · rw [if_pos ht]
      dsimp only
      omega
    · rw [if_neg ht]
      by_cases hnext : timeout ≤ elapsed + interval
      · rw [waitLoopGo_of_timeout_le probe timeout interval fuel (elapsed + interval) hnext]
        dsimp only
        omega
      · have hrec := ih (elapsed + interval)
        dsimp only
        rw [Nat.mul_succ]
        omega

/-- If the probes at poll times 0, interval, ..., interval*(k-1) all
fail and the probe at interval*k succeeds while the counter is still
below the timeout, the loop exits at exactly that poll, with success and
k+1 probes issued. -/
theorem waitLoopGo_first_success (probe : Nat → Bool) (timeout interval : Nat) :
    ∀ k fuel elapsed, k ≤ fuel →
      (∀ j, j < k → probe (elapsed + interval * j) = false) →
      probe (elapsed + interval * k) = true →
      elapsed + interval * k < timeout →
      waitLoopGo probe timeout interval fuel elapsed
        = ⟨elapsed + interval * k, true, k + 1⟩ := by
  intro k
  induction k with
  | zero =>
    intro fuel elapsed _ _ hsucc hlt
    simp only [Nat.mul_zero, Nat.add_zero] at hsucc hlt
    cases fuel with
    | zero =>
      rw [waitLoopGo_zero probe timeout interval elapsed, hsucc]
      simp
    | succ fuel =>
      rw [waitLoopGo_succ probe timeout interval fuel elapsed, if_pos hsucc]
      simp
  | succ k ih =>
    intro fuel elapsed hfuel hbelow hsucc hlt
    cases fuel with
    | zero => omega
    | succ fuel =>
      have hp0 : ¬ probe elapsed = true := by
        have := hbelow 0 (Nat.succ_pos k)
        simp only [Nat.mul_zero, Nat.add_zero] at this
        simp [this]
      have ht : ¬ timeout ≤ elapsed := by
        have : elapsed ≤ elapsed + interval * (k + 1) := Nat.le_add_right _ _
        omega
      rw [waitLoopGo_succ probe timeout interval fuel elapsed, if_neg hp0, if_neg ht]
      have hmulx : interval * (k + 1) = interval * k + interval := Nat.mul_succ interval k
      have hbelow2 : ∀ j, j < k → probe (elapsed + interval + interval * j) = false := by
        intro j hj
        have hx : elapsed + interval + interval * j = elapsed + interval * (j + 1) := by
          rw [Nat.mul_succ]; omega
        rw [hx]
        exact hbelow (j + 1) (by omega)
      have hsucc2 : probe (elapsed + interval + interval * k) = true := by
        have hx : elapsed + interval + interval * k = elapsed + interval * (k + 1) := by
          rw [Nat.mul_succ]; omega
        rw [hx]; exact hsucc
      have hlt2 : elapsed + interval + interval * k < timeout := by omega
      rw [ih fuel (elapsed + interval) (by omega) hbelow2 hsucc2 hlt2]
      have hx : elapsed + interval + interval * k = elapsed + interval * (k + 1) := by omega
      simp [hx]

/-- With poll interval 2, if every probe strictly below the timeout
fails and the probe at exactly the timeout succeeds (even timeout), the
loop exits at the timeout with the success flag set. -/
theorem waitLoopGo_success_at_timeout (probe : Nat → Bool) (timeout : Nat)
    (hbelow : ∀ x, x < timeout → probe x = false) (hT : probe timeout = true) :
    ∀ fuel elapsed, elapsed ≤ timeout → timeout - elapsed ≤ 2 * fuel →
      2 ∣ (timeout - elapsed) →
      waitLoopGo probe timeout 2 fuel elapsed
        = ⟨timeout, true, (timeout - elapsed) / 2 + 1⟩ := by
  intro fuel
  induction fuel with
  | zero =>
    intro elapsed hle hfuel _
    have he : elapsed = timeout := by omega
    rw [he, waitLoopGo_zero probe timeout 2 timeout, hT]
    simp
  | succ fuel ih =>
    intro elapsed hle hfuel hdvd
    by_cases he : elapsed = timeout
    · rw [he, waitLoopGo_succ probe timeout 2 fuel timeout, if_pos hT]
      simp
    · have hlt : elapsed < timeout := by omega
      have hp : ¬ probe elapsed = true := by simp [hbelow elapsed hlt]
      have ht : ¬ timeout ≤ elapsed := by omega
      have hstep : elapsed + 2 ≤ timeout := by omega
      rw [waitLoopGo_succ probe timeout 2 fuel elapsed, if_neg hp, if_neg ht,
          ih (elapsed + 2) hstep (by omega) (by omega)]
      have hdx : (timeout - (elapsed + 2)) / 2 + 1 = (timeout - elapsed) / 2 := by omega
      simp [hdx]

/-- The health wait of the server script never promotes blindly: when
the final elapsed counter is below the timeout, the probe observed at
that counter value succeeded. -/
theorem waitHealthy_elapsed_lt (probe : Nat → Bool) (timeout : Nat)
    (h : (waitHealthy probe timeout).elapsed < timeout) :
    probe (waitHealthy probe timeout).elapsed = true
      ∧ (waitHealthy probe timeout).success = true := by
  have := waitLoopGo_elapsed_lt probe timeout 2 timeout 0 (by omega) h
  exact this

/-- Bounded wait, generic interval: against an endpoint that never
succeeds, the wait reports failure, the elapsed counter ends in the
interval from timeout to timeout plus one poll interval, and the number
of polls is at most timeout over interval plus two. -/
theorem waitHealthyP_never (probe : Nat → Bool) (timeout interval : Nat)
    (hP : 0 < interval) (hnever : ∀ x, probe x = false) :
    (waitHealthyP probe timeout interval).success = false
      ∧ timeout ≤ (waitHealthyP probe timeout interval).elapsed
      ∧ (waitHealthyP probe timeout interval).elapsed < timeout + interval
      ∧ (waitHealthyP probe timeout interval).polls ≤ timeout / interval + 2 := by
  have hfuel : timeout ≤ 0 + timeout * interval := by
    have h1 : timeout * 1 ≤ timeout * interval := Nat.mul_le_mul_left timeout hP
    omega
  have hbase := waitLoopGo_never probe timeout interval hnever timeout 0 hfuel (by omega)
  refine ⟨hbase.1, hbase.2.1, hbase.2.2, ?_⟩
  have hpolls := waitLoopGo_never_polls probe timeout interval hP hnever timeout 0
  have hle : (waitHealthyP probe timeout interval).polls * interval
      ≤ timeout + interval + interval := by
    have : interval * (waitHealthyP probe timeout interval).polls
        ≤ timeout - 0 + 2 * interval - 1 := hpolls
    have hcomm : interval * (waitHealthyP probe timeout interval).polls
        = (waitHealthyP probe timeout interval).polls * interval := Nat.mul_comm _ _
    omega
  have hdiv : (waitHealthyP probe timeout interval).polls ≤ (timeout + interval + interval) / interval :=
    (Nat.le_div_iff_mul_le hP).mpr hle
  have heq : (timeout + interval + interval) / interval = timeout / interval + 2 := by
    rw [Nat.add_div_right _ hP, Nat.add_div_right _ hP]
  omega

/-- Short-circuit on success, generic interval: if the probes at poll
times up to interval*(k-1) fail and the one at interval*k succeeds with
the counter still below the timeout, the wait stops there, reports
success, and the healthy decision is taken. -/
theorem waitHealthyP_first_success (probe : Nat → Bool) (timeout interval : Nat)
    (hP : 0 < interval) (k : Nat)
    (hbelow : ∀ j, j < k → probe (interval * j) = false)
    (hsucc : probe (interval * k) = true)
    (hlt : interval * k < timeout) :
    waitHealthyP probe timeout interval = ⟨interval * k, true, k + 1⟩
      ∧ waitHealthyDecision probe timeout interval = true := by
  have hkfuel : k ≤ timeout := by
    have h1 : k * 1 ≤ k * interval := Nat.mul_le_mul_left k hP
    have h2 : k * interval = interval * k := Nat.mul_comm _ _
    omega
  have hmain := waitLoopGo_first_success probe timeout interval k timeout 0 hkfuel
    (by intro j hj; simpa using hbelow j hj) (by simpa using hsucc) (by simpa using hlt)
  have hm : waitHealthyP probe timeout interval = ⟨interval * k, true, k + 1⟩ := by
    unfold waitHealthyP
    rw [hmain]
    simp
  refine ⟨hm, ?_⟩
  unfold waitHealthyDecision
  rw [hm]
  simpa using hlt

/-- The health wait of the server script when the first success arrives
exactly at the timeout (even timeout): the loop exits at the timeout
with the success flag set, so the healthy decision of line 202 is
negative despite the observed success. -/
theorem waitHealthy_success_at_timeout (probe : Nat → Bool) (timeout : Nat)
    (hbelow : ∀ x, x < timeout → probe x = false) (hT : probe timeout = true)
    (hdvd : 2 ∣ timeout) :
    waitHealthy probe timeout = ⟨timeout, true, timeout / 2 + 1⟩ := by
  have := waitLoopGo_success_at_timeout probe timeout hbelow hT timeout 0
    (by omega) (by omega) (by simpa using hdvd)
  unfold waitHealthy waitHealthyP
  rw [this]
  simp

/-! ### Lemmas about the server script run -/

/-- When /swapfile is already active at the start of the run, the swap
block of the server script leaves it exactly as it found it and does not
set CREATED_SWAP. -/
theorem ensureSwap_of_active (env : SrvEnv) (init : HostInit) (h : init.swapActive = true) :
    ensureSwap env init = ⟨init.swapFileExists, true, false, false⟩ := by
  unfold ensureSwap
  by_cases hm : env.memMB < 2000
  · rw [if_pos hm, if_pos h]
  · rw [if_neg hm, h]

/-- A run of the server script that promoted passed every guard on the
way: tools present, clone succeeded, the swap block did not abort, build
and up succeeded, and the health decision was positive; and the whole
result record is the promotion record. -/
theorem server_promoted_eq (env : SrvEnv) (init : HostInit)
    (h : (serverCloneAndDeploy env init).promoted = true) :
    (env.gitInstalled && env.dockerInstalled) = true ∧ env.cloneOk = true
      ∧ (ensureSwap env init).aborted = false ∧ env.buildOk = true ∧ env.upOk = true
      ∧ (waitHealthy (fun e => curlProbeHealthy (env.responses e)) env.healthTimeout).elapsed
          < env.healthTimeout
      ∧ serverCloneAndDeploy env init =
          ⟨0, true, cpA init.appDirFiles env.releaseFiles, false, false, true,
            (ensureSwap env init).fileExists && !(ensureSwap env init).created,
            (ensureSwap env init).active && !(ensureSwap env init).created,
            (ensureSwap env init).created,
            (if (ensureSwap env init).created then 1 else 0),
            [⟨1, CacheMode.noCache, true, true⟩]⟩ := by
  by_cases hgd : (env.gitInstalled && env.dockerInstalled) = true
  · by_cases hclone : env.cloneOk = true
    · by_cases habort : (ensureSwap env init).aborted = true
      · simp [serverCloneAndDeploy, hgd, hclone, habort] at h
      · simp only [Bool.not_eq_true] at habort
        by_cases hbuild : env.buildOk = true
        · by_cases hup : env.upOk = true
          · by_cases hw : (waitHealthy (fun e => curlProbeHealthy (env.responses e))
                env.healthTimeout).elapsed < env.healthTimeout
            · refine ⟨hgd, hclone, habort, hbuild, hup, hw, ?_⟩
              simp [serverCloneAndDeploy, hgd, hclone, habort, hbuild, hup, hw]
            · simp [serverCloneAndDeploy, hgd, hclone, habort, hbuild, hup, hw] at h
          · simp [serverCloneAndDeploy, hgd, hclone, habort, hbuild, hup] at h
        · simp [serverCloneAndDeploy, hgd, hclone, habort, hbuild] at h
    · simp [serverCloneAndDeploy, hgd, hclone] at h
  · simp [serverCloneAndDeploy, hgd] at h

/-- The result record of a server run whose docker compose build failed:
exit 1, no promotion, the staged release removed, the application
directory untouched, no services running, and the swap left exactly as
the swap block set it up, with no removal. -/
theorem server_buildfail_eq (env : SrvEnv) (init : HostInit)
    (hgd : (env.gitInstalled && env.dockerInstalled) = true)
    (hclone : env.cloneOk = true)
    (habort : (ensureSwap env init).aborted = false)
    (hbuild : env.buildOk = false) :
    serverCloneAndDeploy env init =
      ⟨1, false, init.appDirFiles, false, false, false,
        (ensureSwap env init).fileExists, (ensureSwap env init).active,
        (ensureSwap env init).created, 0,
        [⟨1, CacheMode.noCache, true, false⟩]⟩ := by
  simp [serverCloneAndDeploy, hgd, hclone, habort, hbuild]

/-- The result record of a server run that reached the health wait and
got a negative health decision: exit 1, no promotion, services down, the
staged release removed, and the swap left in place with no removal. -/
theorem server_healthfail_eq (env : SrvEnv) (init : HostInit)
    (hgd : (env.gitInstalled && env.dockerInstalled) = true)
    (hclone : env.cloneOk = true)
    (habort : (ensureSwap env init).aborted = false)
    (hbuild : env.buildOk = true)
    (hup : env.upOk = true)
    (hw : ¬ (waitHealthy (fun e => curlProbeHealthy (env.responses e))
        env.healthTimeout).elapsed < env.healthTimeout) :
    serverCloneAndDeploy env init =
      ⟨1, false, init.appDirFiles, false, false, false,
        (ensureSwap env init).fileExists, (ensureSwap env init).active,
        (ensureSwap env init).created, 0,
        [⟨1, CacheMode.noCache, true, true⟩]⟩ := by
  simp [serverCloneAndDeploy, hgd, hclone, habort, hbuild, hup, hw]

/-- A server run that exited 0 promoted. -/
theorem server_exit0_promoted (env : SrvEnv) (init : HostInit)
    (h : (serverCloneAndDeploy env init).exitCode = 0) :
    (serverCloneAndDeploy env init).promoted = true := by
  by_cases hgd : (env.gitInstalled && env.dockerInstalled) = true
  · by_cases hclone : env.cloneOk = true
    · by_cases habort : (ensureSwap env init).aborted = true
      · simp [serverCloneAndDeploy, hgd, hclone, habort] at h
      · simp only [Bool.not_eq_true] at habort
        by_cases hbuild : env.buildOk = true
        · by_cases hup : env.upOk = true
          · by_cases hw : (waitHealthy (fun e => curlProbeHealthy (env.responses e))
                env.healthTimeout).elapsed < env.healthTimeout
            · simp [serverCloneAndDeploy, hgd, hclone, habort, hbuild, hup, hw]
            · simp [serverCloneAndDeploy, hgd, hclone, habort, hbuild, hup, hw] at h
          · simp [serverCloneAndDeploy, hgd, hclone, habort, hbuild, hup] at h
        · simp [serverCloneAndDeploy, hgd, hclone, habort, hbuild] at h
    · simp [serverCloneAndDeploy, hgd, hclone] at h
  · simp [serverCloneAndDeploy, hgd] at h

/-! ### Lemmas about the cp -a copy -/

/-- The first observable state of the cp -a copy is the untouched
previous application directory. -/
theorem cpAStates_head (files : List String) (dir : List (String × FileVer)) :
    (cpAStates dir files).head? = some dir := by
  cases files <;> rfl

/-- The final cp -a result is among the observable states of the copy. -/
theorem cpA_mem_cpAStates : ∀ (files : List String) (dir : List (String × FileVer)),
    cpA dir files ∈ cpAStates dir files := by
  intro files
  induction files with
  | nil =>
    intro dir
    simp [cpA, cpAStates]
  | cons f fs ih =>
    intro dir
    simp only [cpA, List.foldl_cons, cpAStates]
    exact List.mem_cons_of_mem _ (ih (copyFile dir f))

/-! ### Claims -/

/-- C1: the server script promotes a release only when the health wait
observed a successful probe strictly before the health timeout elapsed:
whenever the promotion block ran, there is an elapsed value below
HEALTH_TIMEOUT at which the curl probe of the endpoint succeeded. -/
theorem c1_promotion_requires_healthy_probe (env : SrvEnv) (init : HostInit)
    (h : (serverCloneAndDeploy env init).promoted = true) :
    ∃ e, e < env.healthTimeout ∧ curlProbeHealthy (env.responses e) = true := by
  have hcase := server_promoted_eq env init h
  have hw := hcase.2.2.2.2.2.1
  refine ⟨(waitHealthy (fun e => curlProbeHealthy (env.responses e))
    env.healthTimeout).elapsed, hw, ?_⟩
  exact (waitHealthy_elapsed_lt _ env.healthTimeout hw).1

/-- C1 witness: the fully successful run of c1env promotes, and the
theorem produces a successful probe before the timeout. -/
theorem c1_witness :
    ∃ e, e < c1env.healthTimeout ∧ curlProbeHealthy (c1env.responses e) = true :=
  c1_promotion_requires_healthy_probe c1env c1init (by decide)

/-- C2 counterexample: promotion is not an atomic pointer update.
Midway through the cp -a copy over c2dir the application directory is
c2mixed, in which one file already belongs to the new release while the
other still belongs to the previous one, so a reader can observe a state
that is neither the old release nor the new one; moreover the older
server script deletes the previously active release directory before the
new release is in place: with a failing clone it exits 1 with the
application directory no longer present. -/
theorem c2_counterexample :
    c2mixed ∈ cpAStates c2dir c2files
      ∧ allOld c2mixed = false ∧ allNew c2mixed = false
      ∧ (oldServerDeploy c2oldEnv c2oldInit).appDirExists = false
      ∧ (oldServerDeploy c2oldEnv c2oldInit).exitCode = 1 := by
  decide

/-- C2 amended: promotion copies the release files into the application
directory one file at a time, overwriting the previous files in place,
so intermediate mixed states are observable; in a run that promotes, the
final application directory is exactly the file-by-file cp -a fold of
the release files over the previous contents and the staged release
directory is deleted only afterwards; the observable copy states begin
with the untouched previous directory and contain the fully copied
one. -/
theorem c2_amended (env : SrvEnv) (init : HostInit)
    (h : (serverCloneAndDeploy env init).promoted = true) :
    (serverCloneAndDeploy env init).appDirFiles = cpA init.appDirFiles env.releaseFiles
      ∧ (serverCloneAndDeploy env init).releaseDirExists = false
      ∧ (∀ d fs, (cpAStates d fs).head? = some d)
      ∧ (∀ d fs, cpA d fs ∈ cpAStates d fs) := by
  have heq := (server_promoted_eq env init h).2.2.2.2.2.2
  rw [heq]
  exact ⟨rfl, rfl, fun d fs => cpAStates_head fs d, fun d fs => cpA_mem_cpAStates fs d⟩

/-- C2 amended witness: the successful run of c2env promotes and its
final application directory is the cp -a fold over both files. -/
theorem c2_amended_witness :
    (serverCloneAndDeploy c2env c2init).appDirFiles = cpA c2init.appDirFiles c2env.releaseFiles
      ∧ (serverCloneAndDeploy c2env c2init).releaseDirExists = false :=
  ⟨(c2_amended c2env c2init (by decide)).1, (c2_amended c2env c2init (by decide)).2.1⟩

/-- C10: when the first successful probe arrives exactly when the
elapsed counter has reached HEALTH_TIMEOUT (an even timeout), the server
script classifies the release as unhealthy although the loop observed a
successful probe: the loop exits with its success flag set, yet the run
takes the unhealthy branch, brings the services down, deletes the new
release directory, and exits 1. -/
theorem c10_success_at_timeout_is_unhealthy (env : SrvEnv) (init : HostInit)
    (hgd : (env.gitInstalled && env.dockerInstalled) = true)
    (hclone : env.cloneOk = true)
    (habort : (ensureSwap env init).aborted = false)
    (hbuild : env.buildOk = true)
    (hup : env.upOk = true)
    (hdvd : 2 ∣ env.healthTimeout)
    (hbelow : ∀ e, e < env.healthTimeout → curlProbeHealthy (env.responses e) = false)
    (hT : curlProbeHealthy (env.responses env.healthTimeout) = true) :
    (waitHealthy (fun e => curlProbeHealthy (env.responses e)) env.healthTimeout).success = true
      ∧ (serverCloneAndDeploy env init).exitCode = 1
      ∧ (serverCloneAndDeploy env init).promoted = false
      ∧ (serverCloneAndDeploy env init).newServicesRunning = false
      ∧ (serverCloneAndDeploy env init).releaseDirExists = false := by
  have hwait := waitHealthy_success_at_timeout (fun e => curlProbeHealthy (env.responses e))
    env.healthTimeout hbelow hT hdvd
  have hnotlt : ¬ (waitHealthy (fun e => curlProbeHealthy (env.responses e))
      env.healthTimeout).elapsed < env.healthTimeout := by
    rw [hwait]
    simp
  have heq := server_healthfail_eq env init hgd hclone habort hbuild hup hnotlt
  rw [heq, hwait]
  exact ⟨rfl, rfl, rfl, rfl, rfl⟩

/-- C10 witness: in the run of c10env (timeout 4, probes failing below 4
and succeeding at 4) the loop observes a success yet the run exits 1
without promoting. -/
theorem c10_witness :
    (waitHealthy (fun e => curlProbeHealthy (c10env.responses e))
        c10env.healthTimeout).success = true
      ∧ (serverCloneAndDeploy c10env c10init).exitCode = 1
      ∧ (serverCloneAndDeploy c10env c10init).promoted = false := by
  have h := c10_success_at_timeout_is_unhealthy c10env c10init (by decide) (by decide)
    (by decide) (by decide) (by decide) (by decide) (by decide) (by decide)
  exact ⟨h.1, h.2.1, h.2.2.1⟩

/-- C3 counterexample: in run c3env the docker build fails while the
previous deployment was serving at the start, yet the previously active
services are not untouched: the pre-deploy cleanup and the down-first
flow stopped and removed them before the build ran, so at exit nothing
is serving. -/
theorem c3_counterexample :
    (serverCloneAndDeploy c3env c3init).exitCode = 1
      ∧ c3init.oldServicesRunning = true
      ∧ (serverCloneAndDeploy c3env c3init).oldServicesRunning = false
      ∧ (serverCloneAndDeploy c3env c3init).newServicesRunning = false := by
  decide

/-- C3 amended: when the build fails, the server script exits 1 with the
staged release deleted, the application directory files unmodified and
no promotion — but the previously active services were already stopped
and their images removed before the build (down-first flow), so they do
not keep serving; in the development script the previous container is
likewise stopped before the build but is restarted when both build
attempts fail. -/
theorem c3_amended :
    (∀ (env : SrvEnv) (init : HostInit),
        (env.gitInstalled && env.dockerInstalled) = true → env.cloneOk = true →
        (ensureSwap env init).aborted = false → env.buildOk = false →
        (serverCloneAndDeploy env init).exitCode = 1
          ∧ (serverCloneAndDeploy env init).appDirFiles = init.appDirFiles
          ∧ (serverCloneAndDeploy env init).releaseDirExists = false
          ∧ (serverCloneAndDeploy env init).promoted = false
          ∧ (serverCloneAndDeploy env init).oldServicesRunning = false)
      ∧ (∀ (denv : DevEnv) (dinit : DevInit),
          denv.dockerRunning = true → denv.npmBuildOk = true →
          denv.attempt1Ok = false → denv.attempt2Ok = false →
          denv.oldContainerExists = true →
          (devDeploy denv dinit).exitCode = 1
            ∧ (devDeploy denv dinit).oldContainerRunning = true
            ∧ (devDeploy denv dinit).newAppRunning = false) := by
  constructor
  · intro env init hgd hclone habort hbuild
    rw [server_buildfail_eq env init hgd hclone habort hbuild]
    exact ⟨rfl, rfl, rfl, rfl, rfl⟩
  · intro denv dinit hdocker hnpm h1 h2 hold
    simp [devDeploy, hdocker, hnpm, h1, h2, hold]

/-- C3 amended witness: the failing-build runs c3env and c3devEnv. -/
theorem c3_amended_witness :
    ((serverCloneAndDeploy c3env c3init).exitCode = 1
      ∧ (serverCloneAndDeploy c3env c3init).oldServicesRunning = false)
    ∧ ((devDeploy c3devEnv c3devInit).exitCode = 1
      ∧ (devDeploy c3devEnv c3devInit).oldContainerRunning = true) := by
  have hs := c3_amended.1 c3env c3init (by decide) (by decide) (by decide) (by decide)
  have hd := c3_amended.2 c3devEnv c3devInit (by decide) (by decide) (by decide)
    (by decide) (by decide)
  exact ⟨⟨hs.1, hs.2.2.2.2⟩, ⟨hd.1, hd.2.1⟩⟩

/-- C4 counterexample: in the server run c4env the new release never
becomes healthy and no promotion has happened, yet the script does not
restart the previously active services: it exits 1 with both the old and
the new services stopped, leaving the host with nothing running. -/
theorem c4_counterexample :
    (serverCloneAndDeploy c4env c4init).exitCode = 1
      ∧ c4init.oldServicesRunning = true
      ∧ (serverCloneAndDeploy c4env c4init).oldServicesRunning = false
      ∧ (serverCloneAndDeploy c4env c4init).newServicesRunning = false
      ∧ (serverCloneAndDeploy c4env c4init).promoted = false := by
  decide

/-- C4 amended: on a failed health check with no prior promotion, only
the development script restarts the previously active container (when
one existed) before exiting; the server script instead brings the new
services down, deletes the release directory and exits 1 without any
restart, leaving neither the old nor the new services running. -/
theorem c4_amended :
    (∀ (denv : DevEnv) (dinit : DevInit),
        denv.dockerRunning = true → denv.npmBuildOk = true →
        (denv.attempt1Ok || denv.attempt2Ok) = true → denv.upOk = true →
        devHealthOk denv.responses = false → denv.oldContainerExists = true →
        (devDeploy denv dinit).exitCode = 1
          ∧ (devDeploy denv dinit).oldContainerRunning = true)
      ∧ (∀ (env : SrvEnv) (init : HostInit),
          (env.gitInstalled && env.dockerInstalled) = true → env.cloneOk = true →
          (ensureSwap env init).aborted = false → env.buildOk = true → env.upOk = true →
          (∀ e, curlProbeHealthy (env.responses e) = false) →
          (serverCloneAndDeploy env init).exitCode = 1
            ∧ (serverCloneAndDeploy env init).oldServicesRunning = false
            ∧ (serverCloneAndDeploy env init).newServicesRunning = false
            ∧ (serverCloneAndDeploy env init).releaseDirExists = false) := by
  constructor
  · intro denv dinit hdocker hnpm hbuild hup hhealth hold
    simp [devDeploy, hdocker, hnpm, hbuild, hup, hhealth, hold]
  · intro env init hgd hclone habort hbuild hup hnever
    have hb := waitHealthyP_never (fun e => curlProbeHealthy (env.responses e))
      env.healthTimeout 2 (by omega) hnever
    have hw : ¬ (waitHealthy (fun e => curlProbeHealthy (env.responses e))
        env.healthTimeout).elapsed < env.healthTimeout := by
      unfold waitHealthy
      have h2 := hb.2.1
      omega
    rw [server_healthfail_eq env init hgd hclone habort hbuild hup hw]
    exact ⟨rfl, rfl, rfl, rfl⟩

/-- C4 amended witness: the never-healthy runs c4devEnv and c4env. -/
theorem c4_amended_witness :
    ((devDeploy c4devEnv c4devInit).exitCode = 1
      ∧ (devDeploy c4devEnv c4devInit).oldContainerRunning = true)
    ∧ ((serverCloneAndDeploy c4env c4init).exitCode = 1
      ∧ (serverCloneAndDeploy c4env c4init).newServicesRunning = false) := by
  have hd := c4_amended.1 c4devEnv c4devInit (by decide) (by decide) (by decide)
    (by decide) (by decide) (by decide)
  have hs := c4_amended.2 c4env c4init (by decide) (by decide) (by decide) (by decide)
    (by decide) (fun _ => rfl)
  exact ⟨hd, ⟨hs.1, hs.2.2.1⟩⟩

/-- C5 counterexample: a swap file that merely existed (inactive) at the
conventional path before run c5env is removed by the orchestrator: the
script reuses it, marks CREATED_SWAP=1, and at the end of the successful
run deactivates and deletes it, so the pre-existing swap file no longer
exists after the run. -/
theorem c5_counterexample :
    c5init.swapFileExists = true
      ∧ (serverCloneAndDeploy c5env c5init).exitCode = 0
      ∧ (serverCloneAndDeploy c5env c5init).createdSwap = true
      ∧ (serverCloneAndDeploy c5env c5init).swapFileExists = false := by
  decide

/-- C5 amended: swap that is already active before the run is never
deactivated or removed, whatever the outcome; but a swap file that is
merely present and inactive at /swapfile is reused by the run, marked
CREATED_SWAP=1, and deactivated and deleted at the end of a successful
run. -/
theorem c5_amended :
    (∀ (env : SrvEnv) (init : HostInit), init.swapActive = true →
        (serverCloneAndDeploy env init).swapActive = true
          ∧ (serverCloneAndDeploy env init).swapFileExists = init.swapFileExists
          ∧ (serverCloneAndDeploy env init).swapRemovals = 0)
      ∧ (∀ (env : SrvEnv) (init : HostInit),
          init.swapActive = false → init.swapFileExists = true →
          env.memMB < 2000 → env.mkswapReuseOk = true → env.swaponReuseOk = true →
          (serverCloneAndDeploy env init).promoted = true →
          (serverCloneAndDeploy env init).createdSwap = true
            ∧ (serverCloneAndDeploy env init).swapFileExists = false
            ∧ (serverCloneAndDeploy env init).swapRemovals = 1) := by
  constructor
  · intro env init h
    have hsw := ensureSwap_of_active env init h
    by_cases hgd : (env.gitInstalled && env.dockerInstalled) = true
    · by_cases hclone : env.cloneOk = true
      · by_cases hbuild : env.buildOk = true
        · by_cases hup : env.upOk = true
          · by_cases hw : (waitHealthy (fun e => curlProbeHealthy (env.responses e))
                env.healthTimeout).elapsed < env.healthTimeout
            · simp [serverCloneAndDeploy, hgd, hclone, hsw, hbuild, hup, hw, h]
            · simp [serverCloneAndDeploy, hgd, hclone, hsw, hbuild, hup, hw, h]
          · simp [serverCloneAndDeploy, hgd, hclone, hsw, hbuild, hup, h]
        · simp [serverCloneAndDeploy, hgd, hclone, hsw, hbuild, h]
      · simp [serverCloneAndDeploy, hgd, hclone, h]
    · simp [serverCloneAndDeploy, hgd, h]
  · intro env init hact hex hmem hmk hswp hprom
    have hsw : ensureSwap env init = ⟨true, true, true, false⟩ := by
      unfold ensureSwap
      rw [if_pos hmem, if_neg (by simp [hact]), if_pos (by simp [hex, hmk, hswp])]
    have heq := (server_promoted_eq env init hprom).2.2.2.2.2.2
    rw [heq, hsw]
    exact ⟨rfl, rfl, rfl⟩

/-- C5 amended witness: run c5aenv starts with active swap and leaves it
untouched; run c5env reuses the inactive pre-existing file and removes
it at the end. -/
theorem c5_amended_witness :
    ((serverCloneAndDeploy c5aenv c5ainit).swapActive = true
      ∧ (serverCloneAndDeploy c5aenv c5ainit).swapRemovals = 0)
    ∧ ((serverCloneAndDeploy c5env c5init).swapFileExists = false
      ∧ (serverCloneAndDeploy c5env c5init).swapRemovals = 1) := by
  have h1 := c5_amended.1 c5aenv c5ainit (by decide)
  have h2 := c5_amended.2 c5env c5init (by decide) (by decide) (by decide) (by decide)
    (by decide) (by decide)
  exact ⟨⟨h1.1, h1.2.2⟩, ⟨h2.2.1, h2.2.2⟩⟩

/-- C6 counterexample: run c6env creates a swap file (low memory, no
pre-existing swap), then the build fails: the script exits 1 having
released the acquired build capacity zero times, not exactly once — the
created swap file is still active at exit. -/
theorem c6_counterexample :
    (serverCloneAndDeploy c6env c6init).exitCode = 1
      ∧ (serverCloneAndDeploy c6env c6init).createdSwap = true
      ∧ (serverCloneAndDeploy c6env c6init).swapRemovals = 0
      ∧ (serverCloneAndDeploy c6env c6init).swapActive = true := by
  decide

/-- C6 amended: the server script releases created swap exactly once on
runs that exit 0, and the remote deployment script releases created swap
exactly once on every run (its removal sits in a finally block); but on
the server script error paths (build, up, or health failure after swap
creation) the script exits without releasing, as the counterexample
shows. -/
theorem c6_amended :
    (∀ (env : SrvEnv) (init : HostInit),
        (serverCloneAndDeploy env init).exitCode = 0 →
        (serverCloneAndDeploy env init).swapRemovals
          = (if (serverCloneAndDeploy env init).createdSwap then 1 else 0))
      ∧ (∀ renv : RemoteEnv,
          (remoteDeploy renv).swapRemovals
            = (if (remoteDeploy renv).createdSwap then 1 else 0)) := by
  constructor
  · intro env init h
    have hprom := server_exit0_promoted env init h
    have heq := (server_promoted_eq env init hprom).2.2.2.2.2.2
    rw [heq]
  · intro renv
    by_cases hup : renv.uploadOk = true
    · simp [remoteDeploy, hup]
    · simp [remoteDeploy, hup]

/-- C6 amended witness: the successful swap-creating run c6wenv and the
failing remote run c6renv. -/
theorem c6_amended_witness :
    ((serverCloneAndDeploy c6wenv c6winit).swapRemovals
        = (if (serverCloneAndDeploy c6wenv c6winit).createdSwap then 1 else 0))
    ∧ ((remoteDeploy c6renv).swapRemovals
        = (if (remoteDeploy c6renv).createdSwap then 1 else 0)) :=
  ⟨c6_amended.1 c6wenv c6winit (by decide), c6_amended.2 c6renv⟩

/-- C7 counterexample: the server deployment run c7env performs exactly
one build attempt, it is in no-cache mode, and the builder cache is
purged before that first (and only) attempt — contradicting the policy
of a cache-enabled first attempt with purge-and-retry only after a
failure. -/
theorem c7_counterexample :
    (serverCloneAndDeploy c7env c7init).buildAttempts
        = [⟨1, CacheMode.noCache, true, true⟩]
      ∧ CacheMode.noCache ≠ CacheMode.cached := by
  decide

/-- C7 amended: only the development script implements the two-attempt
policy: at most two attempts, the first cache-enabled with no preceding
prune, the cache purged and exactly one no-cache retry run only after
the first failure, and exhaustion of both attempts terminal; the server
script instead purges the builder cache unconditionally and runs exactly
one no-cache build attempt. -/
theorem c7_amended :
    (∀ denv : DevEnv,
        (devBuildAttempts denv).length ≤ 2
          ∧ (devBuildAttempts denv).head?
              = some ⟨1, CacheMode.cached, false, denv.attempt1Ok⟩
          ∧ (denv.attempt1Ok = true →
              devBuildAttempts denv = [⟨1, CacheMode.cached, false, true⟩])
          ∧ (denv.attempt1Ok = false →
              devBuildAttempts denv
                = [⟨1, CacheMode.cached, false, false⟩,
                    ⟨2, CacheMode.noCache, true, denv.attempt2Ok⟩]))
      ∧ (∀ (denv : DevEnv) (dinit : DevInit),
          denv.dockerRunning = true → denv.npmBuildOk = true →
          denv.attempt1Ok = false → denv.attempt2Ok = false →
          (devDeploy denv dinit).exitCode = 1)
      ∧ (∀ (env : SrvEnv) (init : HostInit),
          (env.gitInstalled && env.dockerInstalled) = true → env.cloneOk = true →
          (ensureSwap env init).aborted = false →
          (serverCloneAndDeploy env init).buildAttempts
            = [⟨1, CacheMode.noCache, true, env.buildOk⟩]) := by
  refine ⟨fun denv => ?_, fun denv dinit hdocker hnpm h1 h2 => ?_,
    fun env init hgd hclone habort => ?_⟩
  · by_cases h1 : denv.attempt1Ok = true
    · simp [devBuildAttempts, h1]
    · simp [devBuildAttempts, h1]
  · simp [devDeploy, hdocker, hnpm, h1, h2]
  · by_cases hbuild : env.buildOk = true
    · by_cases hup : env.upOk = true
      · by_cases hw : (waitHealthy (fun e => curlProbeHealthy (env.responses e))
            env.healthTimeout).elapsed < env.healthTimeout
        · simp [serverCloneAndDeploy, hgd, hclone, habort, hbuild, hup, hw]
        · simp [serverCloneAndDeploy, hgd, hclone, habort, hbuild, hup, hw]
      · simp [serverCloneAndDeploy, hgd, hclone, habort, hbuild, hup]
    · simp only [Bool.not_eq_true] at hbuild
      rw [server_buildfail_eq env init hgd hclone habort hbuild, hbuild]

/-- C7 amended witness: the development run c7devEnv whose first attempt
fails and the server run c7env. -/
theorem c7_amended_witness :
    devBuildAttempts c7devEnv
        = [⟨1, CacheMode.cached, false, false⟩,
            ⟨2, CacheMode.noCache, true, c7devEnv.attempt2Ok⟩]
      ∧ (serverCloneAndDeploy c7env c7init).buildAttempts
          = [⟨1, CacheMode.noCache, true, c7env.buildOk⟩] :=
  ⟨(c7_amended.1 c7devEnv).2.2.2 (by decide),
    c7_amended.2.2 c7env c7init (by decide) (by decide) (by decide)⟩

/-- C8 counterexample: with timeout 2 and poll interval 2 against an
endpoint whose first success arrives at the poll with elapsed counter 2,
the wait stops at that first successful poll but the health decision is
false, so the wait does not return true on the first successful poll. -/
theorem c8_counterexample :
    (waitHealthyP c8probe 2 2).success = true
      ∧ (waitHealthyP c8probe 2 2).elapsed = 2
      ∧ waitHealthyDecision c8probe 2 2 = false := by
  decide

/-- C8 amended: for every timeout and positive poll interval, against an
endpoint that never succeeds the wait issues at most timeout over
interval plus two polls, finishes with the elapsed counter between the
timeout and timeout plus one interval, and decides unhealthy — it never
retries indefinitely; and the wait stops at the first successful poll
and decides healthy provided that success arrives while the elapsed
counter is still below the timeout (a first success at or beyond the
timeout is decided unhealthy, see the C10 theorem). -/
theorem c8_amended (timeout interval : Nat) (probe : Nat → Bool) (hP : 0 < interval) :
    ((∀ e, probe e = false) →
        (waitHealthyP probe timeout interval).success = false
          ∧ timeout ≤ (waitHealthyP probe timeout interval).elapsed
          ∧ (waitHealthyP probe timeout interval).elapsed < timeout + interval
          ∧ (waitHealthyP probe timeout interval).polls ≤ timeout / interval + 2
          ∧ waitHealthyDecision probe timeout interval = false)
      ∧ (∀ k, (∀ j, j < k → probe (interval * j) = false) →
          probe (interval * k) = true → interval * k < timeout →
          waitHealthyP probe timeout interval = ⟨interval * k, true, k + 1⟩
            ∧ waitHealthyDecision probe timeout interval = true) := by
  constructor
  · intro hnever
    have h := waitHealthyP_never probe timeout interval hP hnever
    have h2 := h.2.1
    refine ⟨h.1, h.2.1, h.2.2.1, h.2.2.2, ?_⟩
    unfold waitHealthyDecision
    exact decide_eq_false (by omega)
  · intro k hbelow hsucc hlt
    exact waitHealthyP_first_success probe timeout interval hP k hbelow hsucc hlt

/-- C8 amended witness: the never-succeeding probe with timeout 4 and
interval 2, and the immediately succeeding probe. -/
theorem c8_amended_witness :
    ((waitHealthyP c8never 4 2).success = false
      ∧ waitHealthyDecision c8never 4 2 = false)
    ∧ waitHealthyP c8always 4 2 = ⟨0, true, 1⟩ := by
  have h1 := (c8_amended 4 2 c8never (by decide)).1 (fun _ => rfl)
  have h2 := (c8_amended 4 2 c8always (by decide)).2 0
    (fun j hj => absurd hj (Nat.not_lt_zero j)) rfl (by decide)
  refine ⟨⟨h1.1, h1.2.2.2.2⟩, ?_⟩
  rw [h2.1]

/-- C9 counterexample: the server script probe (curl -sSf) counts a 301
redirect and a 201 response as healthy, contradicting the rule that 3xx
redirects and 2xx codes other than 200 count as not-yet-healthy. -/
theorem c9_counterexample :
    curlProbeHealthy (some 301) = true ∧ curlProbeHealthy (some 201) = true := by
  decide

/-- C9 amended: the two scripts disagree on what counts as healthy.  The
development script counts exactly an HTTP 200 response as healthy and a
thrown request (network error, timeout, error status) as not healthy;
the server script probe succeeds for every response with status below
400 — including 3xx redirects and non-200 2xx codes — and fails for
network errors, timeouts and statuses of 400 and above. -/
theorem c9_amended :
    (∀ s, curlProbeHealthy (some s) = true ↔ s < 400)
      ∧ curlProbeHealthy none = false
      ∧ (∀ s, devProbeHealthy (some s) = true ↔ s = 200)
      ∧ devProbeHealthy none = false := by
  refine ⟨fun s => ?_, rfl, fun s => ?_, rfl⟩
  · simp [curlProbeHealthy]
  · simp [devProbeHealthy]

end IsyDeploy
